import Mathlib

/-
Verification of the scene effect and animation toggle controller of the
camera-perspective viewer (source: src/unnamed/part_000, a three.js app).

The embedding models the module-level mutable state of the script
(isOpen, gltfModel, actions, the mesh materials of the loaded model, the
EffectComposer pass list, the lens-flare membership in the scene, and the
number of audio-cue plays) as a record `AppState`, and each source
function (toggleAnimation, applyBlur, removeBlur, applyMangaShaderMaterial,
removeMangaShaderMaterial, applyLensFlare, removeLensFlare, the loader
callbacks, onClick) as a function on that record.

External collaborators are modelled through their observable contracts:
  - THREE.AnimationMixer.setTime t updates every action so that its
    play-head equals t (time scale 1, clip long enough — the level at
    which the program uses it);
  - scene.add / scene.remove of the one lens-flare object is a boolean;
  - the EffectComposer pass list is a list of pass kinds, since the code
    only inspects it through an instanceof check;
  - the raycaster with recursive flag set, applied to the object list
    [gltfModel], only returns objects of the model subtree; the subtree is
    modelled as a rose tree and a hit as a node of it, its parent chain
    being the path from the node up to the root continued by the model
    ancestors in the scene.
-/

namespace CameraPerspective

/-- A mesh material: either one of the model's own (original) materials,
identified by a number, or the manga shader material produced by the
manga shader manager. The code never distinguishes two manga materials
obtained from getMangaMaterial, so one constructor suffices. -/
inductive Material where
  | original (id : Nat)
  | manga
  deriving DecidableEq, Repr

/-- A mesh of the loaded model: its current material (child.material) and
the captured original (child.userData.originalMaterial, absent until the
load callback stores it). -/
structure Mesh where
  material : Material
  originalMaterial : Option Material
  deriving DecidableEq, Repr

/-- A pass of the EffectComposer: the code distinguishes passes only by an
instanceof KawaseBlurPass check. -/
inductive PassKind where
  | renderPass
  | kawaseBlurPass
  deriving DecidableEq, Repr

/-- An animation action (clip-ref): its play-head time and paused flag,
the two observables the program reads or sets. -/
structure Action where
  time : ℚ
  paused : Bool
  deriving DecidableEq, Repr

/-- The module-level mutable state of the script. -/
structure AppState where
  isOpen : Bool
  modelLoaded : Bool
  actions : List Action
  meshes : List Mesh
  passes : List PassKind
  lensFlareInScene : Bool
  soundPlayCount : Nat
  deriving DecidableEq, Repr

/-- State at script start: isOpen = false, gltfModel = null, actions = [],
composer passes = [RenderPass, KawaseBlurPass] (fx.addPass twice at setup),
lens flare not yet added, no sound played. -/
def initialState : AppState :=
  { isOpen := false
    modelLoaded := false
    actions := []
    meshes := []
    passes := [PassKind.renderPass, PassKind.kawaseBlurPass]
    lensFlareInScene := false
    soundPlayCount := 0 }

/-- Source removeBlur: fx.passes = fx.passes.filter of not instanceof
KawaseBlurPass. -/
def removeBlur (s : AppState) : AppState :=
  { s with passes := s.passes.filter (fun p => !(p == PassKind.kawaseBlurPass)) }

/-- Source applyBlur: if no pass is an instanceof KawaseBlurPass, add the
KawaseBlurPass at the end of the pass list. -/
def applyBlur (s : AppState) : AppState :=
  if s.passes.any (fun p => p == PassKind.kawaseBlurPass) then s
  else { s with passes := s.passes ++ [PassKind.kawaseBlurPass] }

/-- Per-mesh body of removeMangaShaderMaterial: restore the captured
original into child.material when one was captured; the captured value
itself is left in place. -/
def restoreOriginal (m : Mesh) : Mesh :=
  match m.originalMaterial with
  | some orig => { m with material := orig }
  | none => m

/-- Per-mesh body of applyMangaShaderMaterial: replace child.material by a
manga material from the manga shader manager; originalMaterial is not
touched. -/
def applyManga (m : Mesh) : Mesh :=
  { m with material := Material.manga }

/-- Source removeMangaShaderMaterial: if gltfModel is set, traverse the
model restoring every mesh's original material. -/
def removeMangaShaderMaterial (s : AppState) : AppState :=
  if s.modelLoaded then { s with meshes := s.meshes.map restoreOriginal }
  else s

/-- Source applyMangaShaderMaterial: if gltfModel is set, traverse the model
giving every mesh a manga material. -/
def applyMangaShaderMaterial (s : AppState) : AppState :=
  if s.modelLoaded then { s with meshes := s.meshes.map applyManga }
  else s

/-- Source applyLensFlare: scene.add of the lens-flare effect object (adding
an object already in the scene leaves a single occurrence). -/
def applyLensFlare (s : AppState) : AppState :=
  { s with lensFlareInScene := true }

/-- Source removeLensFlare: scene.remove of the lens-flare effect object. -/
def removeLensFlare (s : AppState) : AppState :=
  { s with lensFlareInScene := false }

/-- The fixed open-state target time, 6.049 time-units, written in reduced
form (6049 and 1000 are coprime) so that concrete states evaluate. -/
def targetOpenTime : ℚ := { num := 6049, den := 1000 }

lemma targetOpenTime_eq_div : targetOpenTime = 6049 / 1000 := by
  rw [targetOpenTime]
  norm_num [Rat.mk'_eq_divInt, Rat.divInt_eq_div]

/-- Effect of actions.forEach of action.reset().play() followed by
action.time = 0: the play-head is at 0 and the action is not paused. -/
def resetAndPlayAll (s : AppState) : AppState :=
  { s with actions := s.actions.map (fun a => { a with time := 0, paused := false }) }

/-- Effect of mixer.setTime t on every action bound to the mixer: the
play-head equals t. -/
def mixerSetTime (t : ℚ) (s : AppState) : AppState :=
  { s with actions := s.actions.map (fun a => { a with time := t }) }

/-- Effect of actions.forEach of action.paused = true. -/
def pauseAll (s : AppState) : AppState :=
  { s with actions := s.actions.map (fun a => { a with paused := true }) }

/-- Effect of sound.play(): one more audio-cue playback issued. -/
def playSound (s : AppState) : AppState :=
  { s with soundPlayCount := s.soundPlayCount + 1 }

/-- Source toggleAnimation, line for line: guarded by actions.length > 0;
when isOpen, applyBlur, applyMangaShaderMaterial, removeLensFlare, reset
and play every action with time 0, mixer.setTime 0; otherwise removeBlur,
applyLensFlare, removeMangaShaderMaterial, reset and play, mixer.setTime
6.049; then pause every action, play the sound, and flip isOpen. -/
def toggleAnimation (s : AppState) : AppState :=
  if 0 < s.actions.length then
    let s1 :=
      if s.isOpen then
        mixerSetTime 0 (resetAndPlayAll (removeLensFlare (applyMangaShaderMaterial (applyBlur s))))
      else
        mixerSetTime targetOpenTime
          (resetAndPlayAll (removeMangaShaderMaterial (applyLensFlare (removeBlur s))))
    let s2 := playSound (pauseAll s1)
    { s2 with isOpen := !s2.isOpen }
  else s

/-- The loader.load success callback: gltfModel is set, every raw mesh has
its material captured into userData.originalMaterial and replaced by the
manga material; if the file has animations, actions is populated from
them, otherwise it is left as it was. -/
def loadModelSuccess (rawMeshes : List Mesh) (rawClips : List Action)
    (s : AppState) : AppState :=
  { s with
      modelLoaded := true
      meshes := rawMeshes.map (fun m =>
        { material := Material.manga, originalMaterial := some m.material })
      actions := if 0 < rawClips.length then rawClips else s.actions }

/-- The loader.load error callback: console.error only, no state change. -/
def loadModelError (s : AppState) : AppState :=
  s

/-- The three effect flags, re-derived from the state as the spec
describes them: the blur pass is active when a KawaseBlurPass is in the
composer pass list. -/
def blurActive (s : AppState) : Bool :=
  s.passes.any (fun p => p == PassKind.kawaseBlurPass)

/-- The stylized shading is active when every mesh of the model carries the
manga material. -/
def shaderActive (s : AppState) : Bool :=
  s.meshes.all (fun m => m.material == Material.manga)

/-- The lens flare is active when the lens-flare object is in the scene. -/
def lensFlareActive (s : AppState) : Bool :=
  s.lensFlareInScene

/-- Count of toggleAnimation invocations made by the while loop of the
source onClick handler when walking a parent chain: object starts at the
hit object and moves to object.parent until null, invoking the toggle
whenever object is gltfModel. A chain is the list of the visited objects,
each identified by a number. -/
def walkToggleCount (modelId : Nat) : List Nat → Nat
  | [] => 0
  | o :: rest => (if o = modelId then 1 else 0) + walkToggleCount modelId rest

/-- How many times the source onClick handler invokes toggleAnimation: zero
unless currentIntersect is set, gltfModel is set and actions.length > 0;
otherwise once per occurrence of the model in the hit object's parent
chain. -/
def onClickToggleCount (modelId : Nat) (currentIntersect : Option (List Nat))
    (s : AppState) : Nat :=
  match currentIntersect with
  | none => 0
  | some chain =>
      if s.modelLoaded = true ∧ 0 < s.actions.length then walkToggleCount modelId chain
      else 0

/-- The source onClick handler as a state transformer: toggleAnimation runs
once per occurrence of the model in the parent chain (the walk does not
change the chain, so the invocations compose). -/
def onClick (modelId : Nat) (currentIntersect : Option (List Nat))
    (s : AppState) : AppState :=
  match currentIntersect with
  | none => s
  | some chain =>
      if s.modelLoaded = true ∧ 0 < s.actions.length then
        toggleAnimation^[walkToggleCount modelId chain] s
      else s

/-- A sequence of click events, each with the model identifier and the
recorded hit chain at click time, folded over the state. -/
def runClicks (clicks : List (Nat × Option (List Nat))) (s : AppState) : AppState :=
  clicks.foldl (fun t c => onClick c.1 c.2 t) s

/-- The per-frame currentIntersect update of the source tick: objectsToTest
is [gltfModel] when the model is loaded and [] otherwise, and
currentIntersect becomes the first intersection when there is one and null
otherwise. The raycaster result is the hits argument, already restricted
by the raycaster contract to the tested objects and their descendants. -/
def tickCurrentIntersect (modelLoaded : Bool) (hits : List (List Nat)) :
    Option (List Nat) :=
  if modelLoaded then hits.head? else none

mutual

/-- The loaded model subtree as a rose tree of scene objects, each with a
numeric identity, mirroring the three.js object hierarchy that the
recursive raycast walks. -/
inductive SceneNode where
  | mk (id : Nat) (children : SceneForest)

/-- A list of sibling subtrees of the scene hierarchy. -/
inductive SceneForest where
  | nil
  | cons (t : SceneNode) (ts : SceneForest)

end

mutual

/-- All object identifiers of a subtree, root first. -/
def SceneNode.ids : SceneNode → List Nat
  | .mk i cs => i :: SceneForest.ids cs

/-- All object identifiers of a forest. -/
def SceneForest.ids : SceneForest → List Nat
  | .nil => []
  | .cons t ts => SceneNode.ids t ++ SceneForest.ids ts

end

/-- The identifier of the subtree root (the model object itself). -/
def SceneNode.rootId : SceneNode → Nat
  | .mk i _ => i

mutual

/-- The parent chain of an object inside a subtree: the list of objects
from the target up to the subtree root, or none when the target is not in
the subtree. -/
def SceneNode.chainTo : SceneNode → Nat → Option (List Nat)
  | .mk i cs, target =>
    if i = target then some [i]
    else
      match SceneForest.chainTo cs target with
      | some l => some (l ++ [i])
      | none => none

/-- The parent chain of an object inside the first subtree of a forest that
contains it. -/
def SceneForest.chainTo : SceneForest → Nat → Option (List Nat)
  | .nil, _ => none
  | .cons t ts, target =>
      match SceneNode.chainTo t target with
      | some l => some l
      | none => SceneForest.chainTo ts target

end

/-- The two operations that ever touch the composer pass list after
startup. -/
inductive BlurOp where
  | apply
  | remove
  deriving DecidableEq, Repr

/-- Run one pass-list operation. -/
def runBlurOp : BlurOp → AppState → AppState
  | BlurOp.apply, s => applyBlur s
  | BlurOp.remove, s => removeBlur s

/-- Run a sequence of pass-list operations. -/
def runBlurOps (ops : List BlurOp) (s : AppState) : AppState :=
  ops.foldl (fun t op => runBlurOp op t) s

/-- Number of KawaseBlurPass instances in the composer pass list. -/
def blurPassCount (s : AppState) : Nat :=
  s.passes.countP (fun p => p == PassKind.kawaseBlurPass)

/-- A one-mesh model as the loader would deliver it, before the load
callback runs: its own material, nothing captured yet. -/
def mockRawMeshes : List Mesh :=
  [{ material := Material.original 0, originalMaterial := none }]

/-- Two clips as the loader would deliver them. -/
def mockClips : List Action :=
  [{ time := 0, paused := false }, { time := 0, paused := false }]

/-- The state right after a successful load of a model with one mesh and
two animation clips. -/
def mockLoaded : AppState :=
  loadModelSuccess mockRawMeshes mockClips initialState

/-- The state right after a successful load of a model with one mesh and no
animation clips (gltf.animations empty, so actions stays empty). -/
def mockLoadedNoClips : AppState :=
  loadModelSuccess mockRawMeshes [] initialState

/-- Meshes as the load callback leaves them: every mesh has a captured
original material, and that original is not the manga material (the manga
material only exists inside this app and the loaded file cannot carry it);
the model has at least one mesh. -/
def goodMeshes (ms : List Mesh) : Prop :=
  ms ≠ [] ∧ ∀ m ∈ ms, ∃ o, m.originalMaterial = some o ∧ o ≠ Material.manga

lemma toggleAnimation_isOpen (s : AppState) (ha : 0 < s.actions.length) :
    (toggleAnimation s).isOpen = !s.isOpen := by
  by_cases hm : s.modelLoaded <;>
  by_cases hb : (s.passes.any fun p => p == PassKind.kawaseBlurPass) = true <;>
  by_cases ho : s.isOpen <;>
  simp [toggleAnimation, mixerSetTime, resetAndPlayAll, removeLensFlare, applyLensFlare,
    applyMangaShaderMaterial, removeMangaShaderMaterial, applyBlur, removeBlur, playSound,
    pauseAll, ha, hm, hb, ho]

lemma toggleAnimation_modelLoaded (s : AppState) :
    (toggleAnimation s).modelLoaded = s.modelLoaded := by
  by_cases ha : 0 < s.actions.length <;>
  by_cases hm : s.modelLoaded <;>
  by_cases hb : (s.passes.any fun p => p == PassKind.kawaseBlurPass) = true <;>
  by_cases ho : s.isOpen <;>
  simp [toggleAnimation, mixerSetTime, resetAndPlayAll, removeLensFlare, applyLensFlare,
    applyMangaShaderMaterial, removeMangaShaderMaterial, applyBlur, removeBlur, playSound,
    pauseAll, ha, hm, hb, ho]

lemma toggleAnimation_soundPlayCount (s : AppState) (ha : 0 < s.actions.length) :
    (toggleAnimation s).soundPlayCount = s.soundPlayCount + 1 := by
  by_cases hm : s.modelLoaded <;>
  by_cases hb : (s.passes.any fun p => p == PassKind.kawaseBlurPass) = true <;>
  by_cases ho : s.isOpen <;>
  simp [toggleAnimation, mixerSetTime, resetAndPlayAll, removeLensFlare, applyLensFlare,
    applyMangaShaderMaterial, removeMangaShaderMaterial, applyBlur, removeBlur, playSound,
    pauseAll, ha, hm, hb, ho]

lemma toggleAnimation_actions_open (s : AppState) (ha : 0 < s.actions.length)
    (ho : s.isOpen = false) :
    (toggleAnimation s).actions =
      s.actions.map (fun _ => { time := targetOpenTime, paused := true }) := by
  by_cases hm : s.modelLoaded <;>
  simp [toggleAnimation, mixerSetTime, resetAndPlayAll, removeLensFlare, applyLensFlare,
    applyMangaShaderMaterial, removeMangaShaderMaterial, applyBlur, removeBlur, playSound,
    pauseAll, ha, hm, ho, List.map_map, Function.comp]

lemma toggleAnimation_actions_closed (s : AppState) (ha : 0 < s.actions.length)
    (ho : s.isOpen = true) :
    (toggleAnimation s).actions =
      s.actions.map (fun _ => { time := 0, paused := true }) := by
  by_cases hm : s.modelLoaded <;>
  by_cases hb : (s.passes.any fun p => p == PassKind.kawaseBlurPass) = true <;>
  simp [toggleAnimation, mixerSetTime, resetAndPlayAll, removeLensFlare, applyLensFlare,
    applyMangaShaderMaterial, removeMangaShaderMaterial, applyBlur, removeBlur, playSound,
    pauseAll, ha, hm, hb, ho, List.map_map, Function.comp]

lemma toggleAnimation_actions_length (s : AppState) :
    (toggleAnimation s).actions.length = s.actions.length := by
  by_cases ha : 0 < s.actions.length
  · by_cases ho : s.isOpen
    · rw [toggleAnimation_actions_closed s ha ho, List.length_map]
    · rw [toggleAnimation_actions_open s ha (by simpa using ho), List.length_map]
  · simp [toggleAnimation, ha]

lemma toggleAnimation_lensFlare (s : AppState) (ha : 0 < s.actions.length) :
    lensFlareActive (toggleAnimation s) = !s.isOpen := by
  by_cases hm : s.modelLoaded <;>
  by_cases hb : (s.passes.any fun p => p == PassKind.kawaseBlurPass) = true <;>
  by_cases ho : s.isOpen <;>
  simp [toggleAnimation, mixerSetTime, resetAndPlayAll, removeLensFlare, applyLensFlare,
    applyMangaShaderMaterial, removeMangaShaderMaterial, applyBlur, removeBlur, playSound,
    pauseAll, lensFlareActive, ha, hm, hb, ho]

lemma toggleAnimation_blurActive (s : AppState) (ha : 0 < s.actions.length) :
    blurActive (toggleAnimation s) = s.isOpen := by
  by_cases hm : s.modelLoaded <;>
  by_cases hb : (s.passes.any fun p => p == PassKind.kawaseBlurPass) = true <;>
  by_cases ho : s.isOpen <;>
  simp [toggleAnimation, mixerSetTime, resetAndPlayAll, removeLensFlare, applyLensFlare,
    applyMangaShaderMaterial, removeMangaShaderMaterial, applyBlur, removeBlur, playSound,
    pauseAll, blurActive, ha, hm, hb, ho, List.any_eq_true, List.mem_filter]

lemma toggleAnimation_meshes_closed (s : AppState) (ha : 0 < s.actions.length)
    (ho : s.isOpen = true) (hm : s.modelLoaded = true) :
    (toggleAnimation s).meshes = s.meshes.map applyManga := by
  by_cases hb : (s.passes.any fun p => p == PassKind.kawaseBlurPass) = true <;>
  simp [toggleAnimation, mixerSetTime, resetAndPlayAll, removeLensFlare, applyLensFlare,
    applyMangaShaderMaterial, removeMangaShaderMaterial, applyBlur, removeBlur, playSound,
    pauseAll, ha, hm, hb, ho]

lemma toggleAnimation_meshes_open (s : AppState) (ha : 0 < s.actions.length)
    (ho : s.isOpen = false) (hm : s.modelLoaded = true) :
    (toggleAnimation s).meshes = s.meshes.map restoreOriginal := by
  simp [toggleAnimation, mixerSetTime, resetAndPlayAll, removeLensFlare, applyLensFlare,
    applyMangaShaderMaterial, removeMangaShaderMaterial, applyBlur, removeBlur, playSound,
    pauseAll, ha, hm, ho]

lemma goodMeshes_map_restore (ms : List Mesh) (h : goodMeshes ms) :
    goodMeshes (ms.map restoreOriginal) := by
  obtain ⟨hne, hall⟩ := h
  refine ⟨by simpa using hne, ?_⟩
  intro m hm
  rw [List.mem_map] at hm
  obtain ⟨m0, hm0, rfl⟩ := hm
  obtain ⟨o, ho, hom⟩ := hall m0 hm0
  exact ⟨o, by simp [restoreOriginal, ho], hom⟩

lemma goodMeshes_map_apply (ms : List Mesh) (h : goodMeshes ms) :
    goodMeshes (ms.map applyManga) := by
  obtain ⟨hne, hall⟩ := h
  refine ⟨by simpa using hne, ?_⟩
  intro m hm
  rw [List.mem_map] at hm
  obtain ⟨m0, hm0, rfl⟩ := hm
  obtain ⟨o, ho, hom⟩ := hall m0 hm0
  exact ⟨o, by simp [applyManga, ho], hom⟩

lemma toggleAnimation_goodMeshes (s : AppState) (hm : s.modelLoaded = true)
    (hg : goodMeshes s.meshes) : goodMeshes (toggleAnimation s).meshes := by
  by_cases ha : 0 < s.actions.length
  · by_cases ho : s.isOpen
    · rw [toggleAnimation_meshes_closed s ha ho hm]
      exact goodMeshes_map_apply s.meshes hg
    · rw [toggleAnimation_meshes_open s ha (by simpa using ho) hm]
      exact goodMeshes_map_restore s.meshes hg
  · simpa [toggleAnimation, ha] using hg

lemma toggleAnimation_shaderActive (s : AppState) (ha : 0 < s.actions.length)
    (hm : s.modelLoaded = true) (hg : goodMeshes s.meshes) :
    shaderActive (toggleAnimation s) = s.isOpen := by
  by_cases ho : s.isOpen
  · rw [shaderActive, toggleAnimation_meshes_closed s ha ho hm, ho]
    simp [applyManga]
  · have ho' : s.isOpen = false := by simpa using ho
    rw [shaderActive, toggleAnimation_meshes_open s ha ho' hm, ho']
    obtain ⟨hne, hall⟩ := hg
    obtain ⟨m0, hm0⟩ := List.exists_mem_of_ne_nil s.meshes hne
    obtain ⟨o, horig, honm⟩ := hall m0 hm0
    rw [List.all_eq_false]
    refine ⟨restoreOriginal m0, List.mem_map_of_mem _ hm0, ?_⟩
    simp [restoreOriginal, horig, honm]

/-- The state right after the load callback of a playable model: the model
reference is set, the clip collection is non-empty and every mesh has a
captured non-manga original. Preserved by every toggle. -/
def loadedInv (s : AppState) : Prop :=
  s.modelLoaded = true ∧ 0 < s.actions.length ∧ goodMeshes s.meshes

lemma loadedInv_toggle (s : AppState) (h : loadedInv s) :
    loadedInv (toggleAnimation s) := by
  obtain ⟨hm, ha, hg⟩ := h
  refine ⟨?_, ?_, ?_⟩
  · rw [toggleAnimation_modelLoaded]; exact hm
  · rw [toggleAnimation_actions_length]; exact ha
  · exact toggleAnimation_goodMeshes s hm hg

lemma loadedInv_iterate (n : Nat) (s : AppState) (h : loadedInv s) :
    loadedInv (toggleAnimation^[n] s) := by
  induction n with
  | zero => simpa using h
  | succ k ih => rw [Function.iterate_succ_apply']; exact loadedInv_toggle _ ih

lemma loadedInv_load (rawMeshes : List Mesh) (rawClips : List Action)
    (hne : rawMeshes ≠ []) (hm : ∀ m ∈ rawMeshes, m.material ≠ Material.manga)
    (hc : rawClips ≠ []) :
    loadedInv (loadModelSuccess rawMeshes rawClips initialState) := by
  have hlen : 0 < rawClips.length := List.length_pos.mpr hc
  refine ⟨rfl, ?_, ?_, ?_⟩
  · simp [loadModelSuccess, hlen]
  · simp [loadModelSuccess, hne]
  · intro m hmem
    simp only [loadModelSuccess, List.mem_map] at hmem
    obtain ⟨m0, hm0, rfl⟩ := hmem
    exact ⟨m0.material, rfl, hm m0 hm0⟩

/-- The effect flags as a function of the state flag, as the spec's data
model describes them: shading and blur exactly when closed, lens flare
exactly when open. -/
def flagsMatchState (s : AppState) : Prop :=
  shaderActive s = !s.isOpen ∧ blurActive s = !s.isOpen ∧
    lensFlareActive s = s.isOpen

lemma toggle_flags_consistent (s : AppState) (h : loadedInv s) :
    flagsMatchState (toggleAnimation s) := by
  obtain ⟨hm, ha, hg⟩ := h
  have hio := toggleAnimation_isOpen s ha
  refine ⟨?_, ?_, ?_⟩
  · rw [toggleAnimation_shaderActive s ha hm hg, hio, Bool.not_not]
  · rw [toggleAnimation_blurActive s ha, hio, Bool.not_not]
  · rw [toggleAnimation_lensFlare s ha, hio]

lemma walkToggleCount_eq_count (modelId : Nat) (chain : List Nat) :
    walkToggleCount modelId chain = chain.count modelId := by
  induction chain with
  | nil => rfl
  | cons o rest ih =>
    rw [walkToggleCount, ih, List.count_cons]
    by_cases h : o = modelId <;> simp [h, Nat.add_comm]

lemma onClick_not_loaded (modelId : Nat) (hit : Option (List Nat)) (s : AppState)
    (h : s.modelLoaded = false) : onClick modelId hit s = s := by
  cases hit with
  | none => rfl
  | some chain => simp [onClick, h]

mutual

theorem SceneNode.chainTo_mem_node_ids (t : SceneNode) (x : Nat) (l : List Nat)
    (h : SceneNode.chainTo t x = some l) : ∀ y ∈ l, y ∈ SceneNode.ids t := by
  cases t with
  | mk i cs =>
    rw [SceneNode.chainTo] at h
    by_cases hi : i = x
    · rw [if_pos hi] at h
      simp only [Option.some.injEq] at h
      subst h
      intro y hy
      simp only [List.mem_singleton] at hy
      simp [SceneNode.ids, hy]
    · rw [if_neg hi] at h
      cases hcs : SceneForest.chainTo cs x with
      | none => rw [hcs] at h; exact absurd h (by simp)
      | some l' =>
        rw [hcs] at h
        simp only [Option.some.injEq] at h
        subst h
        intro y hy
        rw [SceneNode.ids]
        rcases List.mem_append.mp hy with h1 | h2
        · exact List.mem_cons_of_mem _ (SceneForest.chainTo_mem_forest_ids cs x l' hcs y h1)
        · simp only [List.mem_singleton] at h2
          simp [h2]

theorem SceneForest.chainTo_mem_forest_ids (ts : SceneForest) (x : Nat) (l : List Nat)
    (h : SceneForest.chainTo ts x = some l) : ∀ y ∈ l, y ∈ SceneForest.ids ts := by
  cases ts with
  | nil => rw [SceneForest.chainTo] at h; exact absurd h (by simp)
  | cons t ts' =>
    rw [SceneForest.chainTo] at h
    cases hc : SceneNode.chainTo t x with
    | some l' =>
      rw [hc] at h
      simp only [Option.some.injEq] at h
      subst h
      intro y hy
      rw [SceneForest.ids]
      exact List.mem_append.mpr (Or.inl (SceneNode.chainTo_mem_node_ids t x l' hc y hy))
    | none =>
      rw [hc] at h
      intro y hy
      rw [SceneForest.ids]
      exact List.mem_append.mpr (Or.inr (SceneForest.chainTo_mem_forest_ids ts' x l h y hy))

end

theorem SceneNode.chainTo_count_root (t : SceneNode) (x : Nat) (l : List Nat)
    (hnd : (SceneNode.ids t).Nodup) (h : SceneNode.chainTo t x = some l) :
    l.count t.rootId = 1 := by
  cases t with
  | mk i cs =>
    rw [SceneNode.rootId]
    rw [SceneNode.chainTo] at h
    rw [SceneNode.ids] at hnd
    by_cases hi : i = x
    · rw [if_pos hi] at h
      simp only [Option.some.injEq] at h
      subst h
      simp
    · rw [if_neg hi] at h
      cases hcs : SceneForest.chainTo cs x with
      | none => rw [hcs] at h; exact absurd h (by simp)
      | some l' =>
        rw [hcs] at h
        simp only [Option.some.injEq] at h
        subst h
        have hnotin : i ∉ l' := by
          intro hin
          have hmem := SceneForest.chainTo_mem_forest_ids cs x l' hcs i hin
          exact (List.nodup_cons.mp hnd).1 hmem
        rw [List.count_append, List.count_eq_zero.mpr hnotin]
        simp

lemma blurPassCount_removeBlur (s : AppState) : blurPassCount (removeBlur s) = 0 := by
  rw [blurPassCount, removeBlur]
  rw [List.countP_eq_zero]
  intro p hp
  rw [List.mem_filter] at hp
  simpa using hp.2

lemma blurPassCount_applyBlur (s : AppState) (h : blurPassCount s ≤ 1) :
    blurPassCount (applyBlur s) ≤ 1 := by
  rw [blurPassCount, applyBlur]
  by_cases hb : (s.passes.any fun p => p == PassKind.kawaseBlurPass) = true
  · rw [if_pos hb]
    exact h
  · rw [if_neg hb]
    have hany : (s.passes.any fun p => p == PassKind.kawaseBlurPass) = false :=
      Bool.eq_false_iff.mpr hb
    have h0 : s.passes.countP (fun p => p == PassKind.kawaseBlurPass) = 0 := by
      rw [List.countP_eq_zero]
      rw [List.any_eq_false] at hany
      exact hany
    show (s.passes ++ [PassKind.kawaseBlurPass]).countP
        (fun p => p == PassKind.kawaseBlurPass) ≤ 1
    rw [List.countP_append, h0]
    simp

lemma blurPassCount_runBlurOp (op : BlurOp) (s : AppState) (h : blurPassCount s ≤ 1) :
    blurPassCount (runBlurOp op s) ≤ 1 := by
  cases op with
  | apply => exact blurPassCount_applyBlur s h
  | remove => rw [runBlurOp, blurPassCount_removeBlur]; omega

/-- C1: after every completed invocation of toggleAnimation on a loaded
playable model (non-empty clip collection), the three effect flags are a
deterministic function of the new state: stylized shading and the blur
pass are active exactly when isOpen is false, the lens flare exactly when
isOpen is true; hence shaderActive equals blurActive and lensFlareActive
equals the negation of shaderActive in every reachable post-transition
state. -/
theorem c1_effect_flags_function_of_state (rawMeshes : List Mesh)
    (rawClips : List Action) (n : Nat) (s' : AppState)
    (hne : rawMeshes ≠ []) (hm : ∀ m ∈ rawMeshes, m.material ≠ Material.manga)
    (hc : rawClips ≠ [])
    (hs : s' = toggleAnimation^[n + 1]
        (loadModelSuccess rawMeshes rawClips initialState)) :
    flagsMatchState s' ∧ shaderActive s' = blurActive s' ∧
      lensFlareActive s' = !shaderActive s' := by
  subst hs
  have hinv := loadedInv_iterate n _ (loadedInv_load rawMeshes rawClips hne hm hc)
  rw [Function.iterate_succ_apply']
  obtain ⟨h1, h2, h3⟩ := toggle_flags_consistent _ hinv
  exact ⟨⟨h1, h2, h3⟩, by rw [h1, h2], by rw [h3, h1, Bool.not_not]⟩

/-- Witness for C1: one transition after loading a one-mesh model with two
clips. -/
theorem c1_effect_flags_function_of_state_witness :
    mockRawMeshes ≠ [] ∧ mockClips ≠ [] ∧
    (flagsMatchState (toggleAnimation^[0 + 1]
        (loadModelSuccess mockRawMeshes mockClips initialState)) ∧
      shaderActive (toggleAnimation^[0 + 1]
          (loadModelSuccess mockRawMeshes mockClips initialState)) =
        blurActive (toggleAnimation^[0 + 1]
          (loadModelSuccess mockRawMeshes mockClips initialState)) ∧
      lensFlareActive (toggleAnimation^[0 + 1]
          (loadModelSuccess mockRawMeshes mockClips initialState)) =
        !shaderActive (toggleAnimation^[0 + 1]
          (loadModelSuccess mockRawMeshes mockClips initialState))) :=
  ⟨by decide, by decide,
    c1_effect_flags_function_of_state mockRawMeshes mockClips 0 _
      (by decide) (by decide) (by decide) rfl⟩

/-- C2: for a state with a non-empty clip collection, a Closed-to-Open
invocation of toggleAnimation leaves every clip's play-head at exactly
6.049 time-units and the clip paused, and an Open-to-Closed invocation
leaves every play-head at exactly 0 and the clip paused. -/
theorem c2_target_times (s : AppState) (ha : s.actions ≠ []) :
    (s.isOpen = false → ∀ a ∈ (toggleAnimation s).actions,
        a.time = targetOpenTime ∧ a.paused = true) ∧
    (s.isOpen = true → ∀ a ∈ (toggleAnimation s).actions,
        a.time = 0 ∧ a.paused = true) := by
  have ha' : 0 < s.actions.length := List.length_pos.mpr ha
  constructor
  · intro ho a hmem
    rw [toggleAnimation_actions_open s ha' ho, List.mem_map] at hmem
    obtain ⟨a0, _, rfl⟩ := hmem
    exact ⟨rfl, rfl⟩
  · intro ho a hmem
    rw [toggleAnimation_actions_closed s ha' ho, List.mem_map] at hmem
    obtain ⟨a0, _, rfl⟩ := hmem
    exact ⟨rfl, rfl⟩

/-- Witness for C2 at the freshly loaded two-clip state. -/
theorem c2_target_times_witness :
    mockLoaded.actions ≠ [] ∧
    ((mockLoaded.isOpen = false → ∀ a ∈ (toggleAnimation mockLoaded).actions,
        a.time = targetOpenTime ∧ a.paused = true) ∧
     (mockLoaded.isOpen = true → ∀ a ∈ (toggleAnimation mockLoaded).actions,
        a.time = 0 ∧ a.paused = true)) :=
  ⟨by decide, c2_target_times mockLoaded (by decide)⟩

/-- C3 fails as stated: with the model loaded but its clip collection
empty (an animation-free model file), a click whose recorded hit chain
contains the model does not invoke the toggle controller, because the
source onClick guards on actions.length > 0 before walking the chain. -/
theorem c3_counterexample_zero_clips :
    ¬ (0 < onClickToggleCount 5 (some [5]) mockLoadedNoClips ↔ 5 ∈ [5]) := by
  decide

/-- C3 amended: a pointer click invokes the toggle controller if and only
if the most recent hit's parent chain contains the model, the model is
loaded and the clip collection is non-empty. -/
theorem c3_click_dispatch_iff (modelId : Nat) (hit : Option (List Nat))
    (s : AppState) :
    0 < onClickToggleCount modelId hit s ↔
      ((∃ chain, hit = some chain ∧ modelId ∈ chain) ∧
        s.modelLoaded = true ∧ 0 < s.actions.length) := by
  cases hit with
  | none => simp [onClickToggleCount]
  | some chain =>
    simp only [onClickToggleCount]
    by_cases hcond : s.modelLoaded = true ∧ 0 < s.actions.length
    · rw [if_pos hcond, walkToggleCount_eq_count]
      simp [List.count_pos_iff, hcond]
    · rw [if_neg hcond]
      constructor
      · intro h
        exact absurd h (lt_irrefl 0)
      · rintro ⟨-, hA, hB⟩
        exact absurd ⟨hA, hB⟩ hcond

/-- C4: calling toggleAnimation while the clip collection is empty is a
complete no-op: the whole state (isOpen, passes, lens flare, meshes,
clips, sound plays) is unchanged. -/
theorem c4_empty_clips_noop (s : AppState) (h : s.actions = []) :
    toggleAnimation s = s := by
  simp [toggleAnimation, h]

/-- Witness for C4 at the startup state, whose clip collection is empty. -/
theorem c4_empty_clips_noop_witness :
    initialState.actions = [] ∧ toggleAnimation initialState = initialState :=
  ⟨rfl, c4_empty_clips_noop initialState rfl⟩

/-- C5: disabling the stylized shading is idempotent: applying
removeMangaShaderMaterial twice leaves the state identical to applying it
once, because restoring a mesh leaves its captured original in place. -/
theorem c5_remove_shader_idempotent (s : AppState) :
    removeMangaShaderMaterial (removeMangaShaderMaterial s) =
      removeMangaShaderMaterial s := by
  have hrestore : ∀ m : Mesh, restoreOriginal (restoreOriginal m) = restoreOriginal m := by
    intro m
    cases h : m.originalMaterial <;> simp [restoreOriginal, h]
  by_cases hm : s.modelLoaded <;>
    simp [removeMangaShaderMaterial, hm, List.map_map, Function.comp, hrestore]

/-- C6: a single toggleAnimation invocation on a loaded playable model
pauses all clips at exactly one of the two target times (the same one for
all clips), makes all three effect flags reflect the new state, and
issues exactly one audio-cue playback. -/
theorem c6_single_toggle_guarantee (s : AppState) (ha : s.actions ≠ [])
    (hm : s.modelLoaded = true) (hg : goodMeshes s.meshes) :
    (∃ t, (t = targetOpenTime ∨ t = (0 : ℚ)) ∧
        ∀ a ∈ (toggleAnimation s).actions, a.time = t ∧ a.paused = true) ∧
    flagsMatchState (toggleAnimation s) ∧
    (toggleAnimation s).soundPlayCount = s.soundPlayCount + 1 := by
  have ha' : 0 < s.actions.length := List.length_pos.mpr ha
  refine ⟨?_, toggle_flags_consistent s ⟨hm, ha', hg⟩,
    toggleAnimation_soundPlayCount s ha'⟩
  by_cases ho : s.isOpen
  · refine ⟨0, Or.inr rfl, ?_⟩
    intro a hmem
    rw [toggleAnimation_actions_closed s ha' ho, List.mem_map] at hmem
    obtain ⟨a0, _, rfl⟩ := hmem
    exact ⟨rfl, rfl⟩
  · refine ⟨targetOpenTime, Or.inl rfl, ?_⟩
    intro a hmem
    rw [toggleAnimation_actions_open s ha' (by simpa using ho), List.mem_map] at hmem
    obtain ⟨a0, _, rfl⟩ := hmem
    exact ⟨rfl, rfl⟩

/-- Witness for C6 at the freshly loaded two-clip state. -/
theorem c6_single_toggle_guarantee_witness :
    mockLoaded.actions ≠ [] ∧ mockLoaded.modelLoaded = true ∧
    goodMeshes mockLoaded.meshes ∧
    ((∃ t, (t = targetOpenTime ∨ t = (0 : ℚ)) ∧
        ∀ a ∈ (toggleAnimation mockLoaded).actions,
          a.time = t ∧ a.paused = true) ∧
      flagsMatchState (toggleAnimation mockLoaded) ∧
      (toggleAnimation mockLoaded).soundPlayCount =
        mockLoaded.soundPlayCount + 1) := by
  have hg : goodMeshes mockLoaded.meshes := by
    refine ⟨by decide, ?_⟩
    intro m hm
    simp only [mockLoaded, loadModelSuccess, mockRawMeshes, List.map_cons,
      List.map_nil, List.mem_singleton] at hm
    subst hm
    exact ⟨Material.original 0, rfl, by decide⟩
  exact ⟨by decide, rfl, hg, c6_single_toggle_guarantee mockLoaded (by decide) rfl hg⟩

/-- C7: the double-toggle round trip from the freshly loaded closed state
with two clips: the first call yields Open with every play-head at 6.049,
shading off, blur off, lens flare on; the second returns to Closed with
every play-head at 0, shading on, blur on, lens flare off. -/
theorem c7_double_toggle_round_trip :
    (toggleAnimation mockLoaded).isOpen = true ∧
    (∀ a ∈ (toggleAnimation mockLoaded).actions,
        a.time = targetOpenTime ∧ a.paused = true) ∧
    shaderActive (toggleAnimation mockLoaded) = false ∧
    blurActive (toggleAnimation mockLoaded) = false ∧
    lensFlareActive (toggleAnimation mockLoaded) = true ∧
    (toggleAnimation (toggleAnimation mockLoaded)).isOpen = false ∧
    (∀ a ∈ (toggleAnimation (toggleAnimation mockLoaded)).actions,
        a.time = 0 ∧ a.paused = true) ∧
    shaderActive (toggleAnimation (toggleAnimation mockLoaded)) = true ∧
    blurActive (toggleAnimation (toggleAnimation mockLoaded)) = true ∧
    lensFlareActive (toggleAnimation (toggleAnimation mockLoaded)) = false := by
  decide

/-- C8: a failed model load only logs: the error callback leaves the state
untouched, so isOpen stays at its initial false with an empty clip
collection, and every later click (any hit, any model identity) is a no-op
forever after. -/
theorem c8_load_failure_permanently_inert
    (clicks : List (Nat × Option (List Nat))) :
    loadModelError initialState = initialState ∧
    (loadModelError initialState).isOpen = false ∧
    (loadModelError initialState).actions = [] ∧
    runClicks clicks (loadModelError initialState) = initialState := by
  refine ⟨rfl, rfl, rfl, ?_⟩
  show runClicks clicks initialState = initialState
  induction clicks with
  | nil => rfl
  | cons c cs ih =>
    have h0 : onClick c.1 c.2 initialState = initialState :=
      onClick_not_loaded c.1 c.2 initialState rfl
    calc runClicks (c :: cs) initialState
        = runClicks cs (onClick c.1 c.2 initialState) := rfl
      _ = runClicks cs initialState := by rw [h0]
      _ = initialState := ih

/-- C9 fails as stated: even with a current hit produced by the raycast on
the model subtree (so the chain contains the model root), a click on a
loaded model with no animation clips invokes toggleAnimation zero times,
not exactly once. -/
theorem c9_counterexample_zero_clips :
    SceneNode.chainTo (SceneNode.mk 7 SceneForest.nil) 7 = some [7] ∧
    tickCurrentIntersect mockLoadedNoClips.modelLoaded [[7]] = some [7] ∧
    (7 ∈ [7]) ∧
    onClickToggleCount 7 (some [7]) mockLoadedNoClips = 0 := by
  decide

/-- C9 amended: since the per-frame raycast only tests the loaded model's
subtree, whenever tick records a hit the hit chain contains the model root
(the unrelated-object branch is unreachable), and a click then invokes
toggleAnimation exactly once, provided the clip collection is non-empty.
The subtree is a tree (distinct object identities) and the model's own
ancestors are distinct from it. -/
theorem c9_hit_chain_contains_model (t : SceneNode) (above : List Nat)
    (hits : List (List Nat)) (c : List Nat) (s : AppState)
    (hnd : (SceneNode.ids t).Nodup) (hab : t.rootId ∉ above)
    (hhits : ∀ ch ∈ hits, ∃ x l, SceneNode.chainTo t x = some l ∧ ch = l ++ above)
    (hcur : tickCurrentIntersect s.modelLoaded hits = some c)
    (ha : 0 < s.actions.length) :
    t.rootId ∈ c ∧ onClickToggleCount t.rootId (some c) s = 1 := by
  have hml : s.modelLoaded = true := by
    by_contra hm
    rw [tickCurrentIntersect, Bool.eq_false_iff.mpr hm] at hcur
    exact absurd hcur (by simp)
  rw [tickCurrentIntersect, hml, if_pos rfl] at hcur
  have hc : c ∈ hits := List.mem_of_mem_head? hcur
  obtain ⟨x, l, hx, rfl⟩ := hhits c hc
  have hcount : l.count t.rootId = 1 := SceneNode.chainTo_count_root t x l hnd hx
  have habove : above.count t.rootId = 0 := List.count_eq_zero.mpr hab
  constructor
  · exact List.mem_append.mpr (Or.inl (List.count_pos_iff.mp (by rw [hcount]; omega)))
  · simp only [onClickToggleCount]
    rw [if_pos ⟨hml, ha⟩, walkToggleCount_eq_count, List.count_append, hcount, habove]

/-- Witness for the amended C9: a two-node model subtree under a scene
root, the hit on the child node, at the freshly loaded two-clip state. -/
theorem c9_hit_chain_contains_model_witness :
    ((SceneNode.ids (SceneNode.mk 1 (SceneForest.cons
        (SceneNode.mk 2 SceneForest.nil) SceneForest.nil))).Nodup) ∧
    ((SceneNode.mk 1 (SceneForest.cons (SceneNode.mk 2 SceneForest.nil)
        SceneForest.nil)).rootId ∉ [0]) ∧
    ((SceneNode.mk 1 (SceneForest.cons (SceneNode.mk 2 SceneForest.nil)
        SceneForest.nil)).rootId ∈ [2, 1, 0] ∧
      onClickToggleCount (SceneNode.mk 1 (SceneForest.cons
          (SceneNode.mk 2 SceneForest.nil) SceneForest.nil)).rootId
        (some [2, 1, 0]) mockLoaded = 1) := by
  refine ⟨by decide, by decide, ?_⟩
  have hhits : ∀ ch ∈ [[2, 1, 0]], ∃ x l,
      SceneNode.chainTo (SceneNode.mk 1 (SceneForest.cons
        (SceneNode.mk 2 SceneForest.nil) SceneForest.nil)) x = some l ∧
      ch = l ++ [0] := by
    intro ch hch
    simp only [List.mem_singleton] at hch
    subst hch
    exact ⟨2, [2, 1], by decide, rfl⟩
  have := c9_hit_chain_contains_model
    (SceneNode.mk 1 (SceneForest.cons (SceneNode.mk 2 SceneForest.nil) SceneForest.nil))
    [0] [[2, 1, 0]] ([2, 1] ++ [0]) mockLoaded
    (by decide) (by decide) hhits (by decide) (by decide)
  simpa using this

/-- C10: the composer pass list never holds more than one blur pass:
starting from the startup pass list, any sequence of applyBlur and
removeBlur calls keeps the KawaseBlurPass count at most one. -/
theorem c10_at_most_one_blur_pass (ops : List BlurOp) :
    blurPassCount (runBlurOps ops initialState) ≤ 1 := by
  have hgen : ∀ s, blurPassCount s ≤ 1 → blurPassCount (runBlurOps ops s) ≤ 1 := by
    induction ops with
    | nil => intro s h; exact h
    | cons op rest ih =>
      intro s h
      exact ih _ (blurPassCount_runBlurOp op s h)
  exact hgen initialState (by decide)

end CameraPerspective
